import Mathlib

/-!
Shallow embedding of the x86-64 pKVM hypercall-based VirtIO PCI transport
(`src/transport/x86_64.rs`) and proofs about its register protocol, its
capability resolution and its error handling.

Machine integers are modelled as `Nat` with explicit `% 2 ^ w` at every cast and
wrapping-arithmetic site.  The common configuration structure (`CommonCfg`,
defined in the `pci` module, outside the sources at hand) is modelled per
logical field, following the spec's `CommonConfigLayout`.
-/

namespace Virtio

/-- The maximum number of bytes that can be read or written by a single IO
hypercall (`HYP_IO_MAX` in the source). -/
def HYP_IO_MAX : Nat := 8

/-- The logical fields of the VirtIO common configuration structure accessed by
the transport.  Modelled from the spec: the `CommonCfg` struct is defined in the
`pci` module (not among the sources at hand); the spec's `CommonConfigLayout`
lists these logical fields at fixed byte offsets, so common-config accesses are
modelled per field rather than per byte offset. -/
inductive CommonCfgField where
  | device_feature_select
  | device_feature
  | driver_feature_select
  | driver_feature
  | queue_select
  | queue_size
  | queue_enable
  | queue_notify_off
  | queue_desc
  | queue_driver
  | queue_device
  | device_status
  | config_generation
deriving DecidableEq, Repr

/-- The `size_of` of the Rust type read or written at each common-config field,
as fixed by the typed accesses in the transport source: `u32` feature words and
feature selectors, `u16` queue registers, `u64` queue area addresses, `u8`
device status, and a `u32`-typed read of the configuration generation. -/
def fieldSize : CommonCfgField → Nat
  | .device_feature_select => 4
  | .device_feature => 4
  | .driver_feature_select => 4
  | .driver_feature => 4
  | .queue_select => 2
  | .queue_size => 2
  | .queue_enable => 2
  | .queue_notify_off => 2
  | .queue_desc => 8
  | .queue_driver => 8
  | .queue_device => 8
  | .device_status => 1
  | .config_generation => 4

/-- Modelled from the spec: the device-side register state behind the
common-config window.  The per-queue registers are banks indexed by the value of
`queue_select`, and the feature words are banks indexed by the feature-select
registers; reads of driver-written registers echo the last written value (the
"register model that echoes writes" of the spec's testable properties).
`device_feature_bank` and `queue_notify_off_bank` are device-provided read-only
registers. -/
structure CommonCfgState where
  device_feature_select : Nat
  driver_feature_select : Nat
  device_feature_bank : Nat → Nat
  driver_feature_bank : Nat → Nat
  queue_select : Nat
  queue_size_bank : Nat → Nat
  queue_enable_bank : Nat → Nat
  queue_notify_off_bank : Nat → Nat
  queue_desc_bank : Nat → Nat
  queue_driver_bank : Nat → Nat
  queue_device_bank : Nat → Nat
  device_status : Nat
  config_generation : Nat

/-- Point update of a register bank. -/
def updateBank (bank : Nat → Nat) (i v : Nat) : Nat → Nat :=
  fun j => if j = i then v else bank j

/-- Effect on the register state of one `configwrite!` of value `v` to field
`f`.  Select registers are stored directly; banked registers are stored in the
bank entry named by the current select register; writes to device-provided
read-only registers have no effect. -/
def writeField (st : CommonCfgState) (f : CommonCfgField) (v : Nat) : CommonCfgState :=
  match f with
  | .device_feature_select => { st with device_feature_select := v }
  | .device_feature => st
  | .driver_feature_select => { st with driver_feature_select := v }
  | .driver_feature =>
      { st with driver_feature_bank := updateBank st.driver_feature_bank st.driver_feature_select v }
  | .queue_select => { st with queue_select := v }
  | .queue_size =>
      { st with queue_size_bank := updateBank st.queue_size_bank st.queue_select v }
  | .queue_enable =>
      { st with queue_enable_bank := updateBank st.queue_enable_bank st.queue_select v }
  | .queue_notify_off => st
  | .queue_desc =>
      { st with queue_desc_bank := updateBank st.queue_desc_bank st.queue_select v }
  | .queue_driver =>
      { st with queue_driver_bank := updateBank st.queue_driver_bank st.queue_select v }
  | .queue_device =>
      { st with queue_device_bank := updateBank st.queue_device_bank st.queue_select v }
  | .device_status => { st with device_status := v }
  | .config_generation => st

/-- Result of one `configread!` of field `f`: the stored value truncated to the
register's width (the hypercall read returns exactly `size_of` bytes). -/
def readField (st : CommonCfgState) (f : CommonCfgField) : Nat :=
  (match f with
  | .device_feature_select => st.device_feature_select
  | .device_feature => st.device_feature_bank st.device_feature_select
  | .driver_feature_select => st.driver_feature_select
  | .driver_feature => st.driver_feature_bank st.driver_feature_select
  | .queue_select => st.queue_select
  | .queue_size => st.queue_size_bank st.queue_select
  | .queue_enable => st.queue_enable_bank st.queue_select
  | .queue_notify_off => st.queue_notify_off_bank st.queue_select
  | .queue_desc => st.queue_desc_bank st.queue_select
  | .queue_driver => st.queue_driver_bank st.queue_select
  | .queue_device => st.queue_device_bank st.queue_select
  | .device_status => st.device_status
  | .config_generation => st.config_generation) % 2 ^ (8 * fieldSize f)

/-- `HypPciTransport::read_device_features`: select index 0, read the low
feature word, select index 1, read the high word, return
`(high as u64) << 32 | low as u64`. -/
def read_device_features (st : CommonCfgState) : CommonCfgState × Nat :=
  let st1 := writeField st .device_feature_select 0
  let low := readField st1 .device_feature
  let st2 := writeField st1 .device_feature_select 1
  let high := readField st2 .device_feature
  (st2, high <<< 32 ||| low)

/-- `HypPciTransport::write_driver_features`: select index 0, write
`driver_features as u32`, select index 1, write `(driver_features >> 32) as
u32`. -/
def write_driver_features (st : CommonCfgState) (driver_features : Nat) : CommonCfgState :=
  let st1 := writeField st .driver_feature_select 0
  let st2 := writeField st1 .driver_feature (driver_features % 2 ^ 32)
  let st3 := writeField st2 .driver_feature_select 1
  writeField st3 .driver_feature (driver_features / 2 ^ 32 % 2 ^ 32)

/-- `HypPciTransport::max_queue_size`: select the queue, read `queue_size`. -/
def max_queue_size (st : CommonCfgState) (queue : Nat) : CommonCfgState × Nat :=
  let st1 := writeField st .queue_select (queue % 2 ^ 16)
  (st1, readField st1 .queue_size)

/-- Arguments of a typed write issued on a register window: byte offset within
the window, `size_of` of the written type, and the written value. -/
structure RegionWrite where
  offset : Nat
  size : Nat
  value : Nat
deriving DecidableEq, Repr

/-- `HypPciTransport::notify`: select the queue, read the 16-bit
`queue_notify_off`, and issue a `u16` write of the queue index on the
notify-region window at byte offset `queue_notify_off * notify_off_multiplier`.
The returned `RegionWrite` records the arguments of that
`notify_region.write` call. -/
def notify (st : CommonCfgState) (notify_off_multiplier : Nat) (queue : Nat) :
    CommonCfgState × RegionWrite :=
  let st1 := writeField st .queue_select (queue % 2 ^ 16)
  let queue_notify_off := readField st1 .queue_notify_off
  let offset_bytes := queue_notify_off * (notify_off_multiplier % 2 ^ 32)
  (st1, ⟨offset_bytes, 2, queue % 2 ^ 16⟩)

/-- Modelled from the spec: the defined `DeviceStatus` flags.  The flag catalog
itself lives in the transport module outside the sources at hand; these are the
standard VirtIO status bits named by the spec (acknowledge, driver, driver-ok,
features-ok, device-needs-reset, failed). -/
def deviceStatusMask : Nat := 1 ||| 2 ||| 4 ||| 8 ||| 64 ||| 128

/-- `DeviceStatus::from_bits_truncate`: keep only the defined flag bits. -/
def from_bits_truncate (v : Nat) : Nat := v &&& deviceStatusMask

/-- `HypPciTransport::get_status`: read the 8-bit `device_status` register and
truncate to the defined flag set. -/
def get_status (st : CommonCfgState) : Nat :=
  from_bits_truncate (readField st .device_status)

/-- `HypPciTransport::set_status`: write `status.bits() as u8` to the
`device_status` register. -/
def set_status (st : CommonCfgState) (status : Nat) : CommonCfgState :=
  writeField st .device_status (status % 2 ^ 8)

/-- `HypPciTransport::queue_set`: select the queue, then write `size as u16` to
`queue_size`, the three 64-bit area addresses to `queue_desc`, `queue_driver`
and `queue_device`, and finally `1u16` to `queue_enable`.  The function has no
error channel. -/
def queue_set (st : CommonCfgState)
    (queue size descriptors driver_area device_area : Nat) : CommonCfgState :=
  let st1 := writeField st .queue_select (queue % 2 ^ 16)
  let st2 := writeField st1 .queue_size (size % 2 ^ 16)
  let st3 := writeField st2 .queue_desc (descriptors % 2 ^ 64)
  let st4 := writeField st3 .queue_driver (driver_area % 2 ^ 64)
  let st5 := writeField st4 .queue_device (device_area % 2 ^ 64)
  writeField st5 .queue_enable 1

/-- `HypPciTransport::queue_unset`: a no-op — the VirtIO spec does not allow
queues to be unset once set up for the PCI transport. -/
def queue_unset (st : CommonCfgState) (_queue : Nat) : CommonCfgState := st

/-- `HypPciTransport::queue_used`: select the queue, read `queue_enable`,
return whether it equals 1. -/
def queue_used (st : CommonCfgState) (queue : Nat) : CommonCfgState × Bool :=
  let st1 := writeField st .queue_select (queue % 2 ^ 16)
  (st1, readField st1 .queue_enable == 1)

/-- `HypPciTransport::ack_interrupt`: read the 8-bit ISR status register and
return `isr_status & 0x3 != 0`. -/
def ack_interrupt (isr_status : Nat) : Bool :=
  (isr_status % 2 ^ 8) &&& 3 != 0

/-- A concrete register state used to evaluate the theorems on concrete
inputs: every queue reports `queue_notify_off = 3`, everything else is zero. -/
def exampleState : CommonCfgState where
  device_feature_select := 0
  driver_feature_select := 0
  device_feature_bank := fun _ => 0
  driver_feature_bank := fun _ => 0
  queue_select := 0
  queue_size_bank := fun _ => 0
  queue_enable_bank := fun _ => 0
  queue_notify_off_bank := fun _ => 3
  queue_desc_bank := fun _ => 0
  queue_driver_bank := fun _ => 0
  queue_device_bank := fun _ => 0
  device_status := 0
  config_generation := 0

/-- The operations of the `Transport` implementation that touch the
common-config register state, with their arguments. -/
inductive TransportOp where
  | read_device_features
  | write_driver_features (bits : Nat)
  | max_queue_size (queue : Nat)
  | notify (notify_off_multiplier queue : Nat)
  | set_status (status : Nat)
  | queue_set (queue size descriptors driver_area device_area : Nat)
  | queue_unset (queue : Nat)
  | queue_used (queue : Nat)

/-- The common-config register state reached by running one transport
operation. -/
def applyOp (st : CommonCfgState) : TransportOp → CommonCfgState
  | .read_device_features => (read_device_features st).1
  | .write_driver_features bits => write_driver_features st bits
  | .max_queue_size q => (max_queue_size st q).1
  | .notify m q => (notify st m q).1
  | .set_status s => set_status st s
  | .queue_set q s d dr dv => queue_set st q s d dr dv
  | .queue_unset q => queue_unset st q
  | .queue_used q => (queue_used st q).1

/-- The fatal payload-ceiling invariant check of `HypIoRegion::read` and
`HypIoRegion::write`: `assert!(size_of::<T>() < HYP_IO_MAX)`. -/
def hypPayloadCheckOk (tsize : Nat) : Bool :=
  decide (tsize < HYP_IO_MAX)

/-- The sequence of `configwrite!` calls issued by
`HypPciTransport::queue_set`, as pairs of field and written value, in source
order. -/
def queueSetFieldWrites (queue size descriptors driver_area device_area : Nat) :
    List (CommonCfgField × Nat) :=
  [(.queue_select, queue % 2 ^ 16),
   (.queue_size, size % 2 ^ 16),
   (.queue_desc, descriptors % 2 ^ 64),
   (.queue_driver, driver_area % 2 ^ 64),
   (.queue_device, device_area % 2 ^ 64),
   (.queue_enable, 1)]

/-- `HypIoRegion`: a region of physical address space accessed by IO
hypercalls. -/
structure HypIoRegion where
  paddr : Nat
  size : Nat
deriving DecidableEq, Repr

/-- The runtime errors of the transport used by the device-config accessors
(`Error` in the crate root, outside the sources at hand; the spec names the
"missing" and "too small" errors). -/
inductive Error where
  | ConfigSpaceMissing
  | ConfigSpaceTooSmall
deriving DecidableEq, Repr

/-- Outcome of an operation that can abort on a fatal invariant check
(`panic`), return a recoverable error (`fail`) or succeed. -/
inductive Outcome (α : Type) where
  | panic
  | fail (e : Error)
  | ok (a : α)
deriving DecidableEq, Repr

/-- A hypercall IO read: physical address and transfer size. -/
structure HypRead where
  addr : Nat
  size : Nat
deriving DecidableEq, Repr

/-- A hypercall IO write: physical address, transfer size, and the zero-padded
data payload. -/
structure HypWrite where
  addr : Nat
  size : Nat
  data : Nat
deriving DecidableEq, Repr

/-- `HypIoRegion::read`: assert `offset + size_of::<T>() <= self.size` and
`size_of::<T>() < HYP_IO_MAX` (a failed assert is `panic`), then issue the
hypercall read at `self.paddr + offset`.  Both additions are `usize`
arithmetic and wrap at `2 ^ 64` (release semantics). -/
def HypIoRegion.read (self : HypIoRegion) (tsize offset : Nat) : Outcome HypRead :=
  if (offset + tsize) % 2 ^ 64 ≤ self.size then
    if tsize < HYP_IO_MAX then
      .ok ⟨(self.paddr + offset) % 2 ^ 64, tsize⟩
    else .panic
  else .panic

/-- `HypIoRegion::write`: the same two asserts, then a hypercall write of the
value's raw bytes zero-padded into an 8-byte buffer, transferring exactly
`size_of::<T>()` bytes.  Both additions are `usize` arithmetic and wrap at
`2 ^ 64` (release semantics). -/
def HypIoRegion.write (self : HypIoRegion) (tsize offset value : Nat) : Outcome HypWrite :=
  if (offset + tsize) % 2 ^ 64 ≤ self.size then
    if tsize < HYP_IO_MAX then
      .ok ⟨(self.paddr + offset) % 2 ^ 64, tsize, value % 2 ^ (8 * tsize)⟩
    else .panic
  else .panic

/-- `HypPciTransport::read_config_space::<T>`: assert `align_of::<T>() <= 4`
and `offset % align_of::<T>() == 0`; fail with `ConfigSpaceMissing` when the
device-config window is absent and with `ConfigSpaceTooSmall` when
`config_space.size < offset + size_of::<T>()`; otherwise delegate to the
window's typed read.  `talign` and `tsize` stand for `align_of::<T>()` and
`size_of::<T>()`; the `offset + size_of::<T>()` sum is `usize` arithmetic and
wraps at `2 ^ 64` (release semantics). -/
def read_config_space (config_space : Option HypIoRegion) (talign tsize offset : Nat) :
    Outcome HypRead :=
  if talign ≤ 4 then
    if offset % talign = 0 then
      match config_space with
      | none => .fail .ConfigSpaceMissing
      | some cs =>
        if cs.size < (offset + tsize) % 2 ^ 64 then .fail .ConfigSpaceTooSmall
        else cs.read tsize offset
    else .panic
  else .panic

/-- `HypPciTransport::write_config_space::<T>`: the same checks as the read
path, delegating to the window's typed write. -/
def write_config_space (config_space : Option HypIoRegion) (talign tsize offset value : Nat) :
    Outcome HypWrite :=
  if talign ≤ 4 then
    if offset % talign = 0 then
      match config_space with
      | none => .fail .ConfigSpaceMissing
      | some cs =>
        if cs.size < (offset + tsize) % 2 ^ 64 then .fail .ConfigSpaceTooSmall
        else cs.write tsize offset value
    else .panic
  else .panic

/-- `VirtioCapabilityInfo`: BAR index, byte offset and byte length of a VirtIO
structure, decoded from a vendor-specific capability. -/
structure VirtioCapabilityInfo where
  bar : Nat
  offset : Nat
  length : Nat
deriving DecidableEq, Repr

/-- The discovery-time errors of transport construction (`VirtioPciError` in
the `pci` module, outside the sources at hand; the spec names each of them). -/
inductive VirtioPciError where
  | InvalidVendorId (vendor : Nat)
  | MissingCommonConfig
  | MissingNotifyConfig
  | MissingIsrConfig
  | InvalidNotifyOffMultiplier (multiplier : Nat)
  | UnexpectedIoBar
  | BarNotAllocated (bar : Nat)
  | BarOffsetOutOfRange
  | Misaligned (address : Nat) (alignment : Nat)
deriving DecidableEq, Repr

/-- Modelled from the spec: the decoded state of a BAR as returned by the PCI
`bar_info` lookup (outside the sources at hand) — either an I/O-space BAR, or a
memory-space BAR with its decoded 64-bit address and 32-bit size. -/
inductive BarInfo where
  | io
  | memory (address : Nat) (size : Nat)
deriving DecidableEq, Repr

/-- `BarInfo::memory_address_size`: the address and size of a memory BAR,
`none` for an I/O BAR. -/
def BarInfo.memory_address_size : BarInfo → Option (Nat × Nat)
  | .io => none
  | .memory address size => some (address, size)

/-- `get_bar_region::<H, T, C>` for a type of size `tsize` and alignment
`talign`: reject an I/O BAR, an unallocated (zero-address) BAR, a capability
whose wrapping 32-bit sum `offset + length` exceeds the BAR size or whose
`length` is below `tsize`, and a resolved physical address not aligned to
`talign`; otherwise resolve to the window at `bar_address + offset` of size
`length`.  The `offset + length` addition is `u32 + u32` in the source and the
address addition is `usize` arithmetic, both modelled with their wrapping
widths. -/
def get_bar_region (bar_info : BarInfo) (struct_info : VirtioCapabilityInfo)
    (tsize talign : Nat) : Except VirtioPciError HypIoRegion :=
  match bar_info.memory_address_size with
  | none => .error .UnexpectedIoBar
  | some (bar_address, bar_size) =>
    if bar_address = 0 then .error (.BarNotAllocated struct_info.bar)
    else if (struct_info.offset + struct_info.length) % 2 ^ 32 > bar_size
        ∨ tsize > struct_info.length then .error .BarOffsetOutOfRange
    else
      let paddr := (bar_address + struct_info.offset) % 2 ^ 64
      if paddr % talign ≠ 0 then .error (.Misaligned paddr talign)
      else .ok ⟨paddr, struct_info.length⟩

/-- The PCI vendor-specific capability ID (`PCI_CAP_ID_VNDR`, defined in the
`pci` bus module outside the sources at hand; standard PCI value). -/
def PCI_CAP_ID_VNDR : Nat := 9

/-- VirtIO capability subtype: common configuration. -/
def VIRTIO_PCI_CAP_COMMON_CFG : Nat := 1

/-- VirtIO capability subtype: notify configuration. -/
def VIRTIO_PCI_CAP_NOTIFY_CFG : Nat := 2

/-- VirtIO capability subtype: ISR configuration. -/
def VIRTIO_PCI_CAP_ISR_CFG : Nat := 3

/-- VirtIO capability subtype: device-specific configuration. -/
def VIRTIO_PCI_CAP_DEVICE_CFG : Nat := 4

/-- Modelled from the spec: byte offset of the BAR index within a VirtIO PCI
capability structure (constant defined in the `pci` module outside the sources
at hand). -/
def CAP_BAR_OFFSET : Nat := 4

/-- Modelled from the spec: byte offset of the structure offset word within a
VirtIO PCI capability structure. -/
def CAP_BAR_OFFSET_OFFSET : Nat := 8

/-- Modelled from the spec: byte offset of the structure length word within a
VirtIO PCI capability structure. -/
def CAP_LENGTH_OFFSET : Nat := 12

/-- Modelled from the spec: byte offset of the trailing notify-offset
multiplier word, the fourth configuration-space word of a notify capability. -/
def CAP_NOTIFY_OFF_MULTIPLIER_OFFSET : Nat := 16

/-- One entry of the device's PCI capability list as yielded by the bus walk
(`CapabilityInfo`): its byte offset in configuration space (`u8`), its
capability ID (`u8`) and its 16-bit private header. -/
structure CapabilityEntry where
  offset : Nat
  id : Nat
  private_header : Nat
deriving DecidableEq, Repr

/-- `capability.private_header as u8`: the declared structure length. -/
def capLen (c : CapabilityEntry) : Nat := c.private_header % 2 ^ 8

/-- `(capability.private_header >> 8) as u8`: the VirtIO subtype code. -/
def cfgTypeOf (c : CapabilityEntry) : Nat := c.private_header / 2 ^ 8 % 2 ^ 8

/-- The three configuration-space reads decoding a retained capability into a
`VirtioCapabilityInfo`: BAR index (`as u8`), offset word and length word.
`readWord` is the configuration-access collaborator's 32-bit register read,
keyed by the byte register offset (`u8`, so the offset additions wrap at
`2 ^ 8`). -/
def structInfoOf (readWord : Nat → Nat) (c : CapabilityEntry) : VirtioCapabilityInfo :=
  ⟨readWord ((c.offset + CAP_BAR_OFFSET) % 2 ^ 8) % 2 ^ 8,
   readWord ((c.offset + CAP_BAR_OFFSET_OFFSET) % 2 ^ 8) % 2 ^ 32,
   readWord ((c.offset + CAP_LENGTH_OFFSET) % 2 ^ 8) % 2 ^ 32⟩

/-- The mutable state of the capability-scanning loop in
`HypPciTransport::new`. -/
structure ScanState where
  common_cfg : Option VirtioCapabilityInfo
  notify_cfg : Option VirtioCapabilityInfo
  notify_off_multiplier : Nat
  isr_cfg : Option VirtioCapabilityInfo
  device_cfg : Option VirtioCapabilityInfo
deriving DecidableEq, Repr

/-- The initial scan state: nothing found, multiplier 0. -/
def initScanState : ScanState := ⟨none, none, 0, none, none⟩

/-- One iteration of the capability-scanning loop of `HypPciTransport::new`:
skip entries that are not vendor-specific or whose declared structure length is
below 16; otherwise decode the structure info and dispatch on the subtype,
keeping each subtype's first occurrence (the notify subtype additionally
requires length at least 20 and also latches the notify-offset multiplier). -/
def scanStep (readWord : Nat → Nat) (st : ScanState) (c : CapabilityEntry) : ScanState :=
  if c.id ≠ PCI_CAP_ID_VNDR then st
  else if capLen c < 16 then st
  else
    let si := structInfoOf readWord c
    if cfgTypeOf c = VIRTIO_PCI_CAP_COMMON_CFG ∧ st.common_cfg = none then
      { st with common_cfg := some si }
    else if cfgTypeOf c = VIRTIO_PCI_CAP_NOTIFY_CFG ∧ 20 ≤ capLen c ∧ st.notify_cfg = none then
      { st with notify_cfg := some si,
                notify_off_multiplier :=
                  readWord ((c.offset + CAP_NOTIFY_OFF_MULTIPLIER_OFFSET) % 2 ^ 8) % 2 ^ 32 }
    else if cfgTypeOf c = VIRTIO_PCI_CAP_ISR_CFG ∧ st.isr_cfg = none then
      { st with isr_cfg := some si }
    else if cfgTypeOf c = VIRTIO_PCI_CAP_DEVICE_CFG ∧ st.device_cfg = none then
      { st with device_cfg := some si }
    else st

/-- The full capability-scanning loop of `HypPciTransport::new` over the
device's capability list. -/
def scanCapabilities (readWord : Nat → Nat) (caps : List CapabilityEntry) : ScanState :=
  caps.foldl (scanStep readWord) initScanState

/-- The retention condition the scan applies to one capability entry for a
given subtype: vendor-specific ID, declared length at least 16, length at least
`minLen` (20 for the notify subtype, 16 otherwise), and matching subtype
code. -/
def keptCap (cfgType minLen : Nat) (c : CapabilityEntry) : Bool :=
  decide (c.id = PCI_CAP_ID_VNDR ∧ 16 ≤ capLen c ∧ minLen ≤ capLen c ∧ cfgTypeOf c = cfgType)

lemma shiftLeft32_or_eq_add (high low : Nat) (h : low < 2 ^ 32) :
    high <<< 32 ||| low = 2 ^ 32 * high + low := by
  calc high <<< 32 ||| low = 2 ^ 32 * high ||| low := by
        rw [Nat.shiftLeft_eq, Nat.mul_comm]
    _ = 2 ^ 32 * high + low := (Nat.mul_add_lt_is_or h high).symm

/-- C1: `queue_set` is claimed to pass the fatal payload-ceiling check
(`size_of::<T>() < HYP_IO_MAX`) on all six register writes.  In fact the three
64-bit physical-address writes (`queue_desc`, `queue_driver`, `queue_device`)
fail it, since their size is exactly `HYP_IO_MAX = 8` and the check requires
strict inequality, contradicting `HYP_IO_MAX`'s own documentation as the
maximum transferable size: evaluated on the concrete call
`queue_set(0, 8, 0x1000, 0x2000, 0x3000)`, the per-write check results are
true, true, false, false, false, true. -/
theorem queueSet_payload_ceiling_violation :
    (queueSetFieldWrites 0 8 4096 8192 12288).map
        (fun w => hypPayloadCheckOk (fieldSize w.1))
      = [true, true, false, false, false, true]
      ∧ fieldSize .queue_desc = HYP_IO_MAX := by
  exact ⟨by decide, by decide⟩

/-- C4: `read_device_features` returns `(high << 32) | low` where `low` is the
feature word read after writing 0 to `device_feature_select` and `high` the
word read after writing 1; `write_driver_features` writes the low half after
selecting 0 and the high half after selecting 1; and over a register model
that echoes writes, the write-then-read round trip reproduces the written
64-bit value. -/
theorem features_roundtrip_spec (st : CommonCfgState) (bits : Nat) :
    (read_device_features st).2
        = (st.device_feature_bank 1 % 2 ^ 32) <<< 32 ||| st.device_feature_bank 0 % 2 ^ 32
      ∧ (write_driver_features st bits).driver_feature_bank 0 = bits % 2 ^ 32
      ∧ (write_driver_features st bits).driver_feature_bank 1 = bits / 2 ^ 32 % 2 ^ 32
      ∧ (read_device_features
          { write_driver_features st bits with
              device_feature_bank := (write_driver_features st bits).driver_feature_bank }).2
        = bits % 2 ^ 64 := by
  refine ⟨rfl, rfl, rfl, ?_⟩
  show (bits / 2 ^ 32 % 2 ^ 32 % 2 ^ 32) <<< 32 ||| bits % 2 ^ 32 % 2 ^ 32 = bits % 2 ^ 64
  rw [Nat.mod_mod_of_dvd _ dvd_rfl, Nat.mod_mod_of_dvd _ dvd_rfl,
    shiftLeft32_or_eq_add _ _ (Nat.mod_lt _ (by norm_num))]
  omega

/-- C5: `notify(queue)` first writes the queue index to `queue_select`, then
reads the 16-bit `queue_notify_off`, and issues a 16-bit write of the queue
index on the notify region at byte offset
`queue_notify_off * notify_off_multiplier`; in particular with
`queue_notify_off = 3` and `notify_off_multiplier = 4` the write lands at byte
offset 12. -/
theorem notify_spec (st : CommonCfgState) (notify_off_multiplier queue : Nat) :
    (notify st notify_off_multiplier queue).1
        = writeField st .queue_select (queue % 2 ^ 16)
      ∧ (notify st notify_off_multiplier queue).2
        = ⟨st.queue_notify_off_bank (queue % 2 ^ 16) % 2 ^ 16
            * (notify_off_multiplier % 2 ^ 32), 2, queue % 2 ^ 16⟩
      ∧ (notify exampleState 4 5).2 = ⟨12, 2, 5⟩ := by
  exact ⟨rfl, rfl, by decide⟩

/-- C8: `ack_interrupt` returns true exactly when bit 0 or bit 1 of the 8-bit
ISR status value is set; the two causes are not distinguished. -/
theorem ack_interrupt_spec (isr_status : Nat) :
    ack_interrupt isr_status = (isr_status.testBit 0 || isr_status.testBit 1) := by
  have hand : (isr_status % 2 ^ 8) &&& 3 = isr_status % 4 := by
    have h1 := Nat.and_pow_two_sub_one_eq_mod (isr_status % 2 ^ 8) 2
    norm_num at h1 ⊢
    exact h1
  have ht1 : isr_status.testBit 1 = decide (isr_status / 2 % 2 = 1) := by
    rw [show (1 : Nat) = Nat.succ 0 from rfl, Nat.testBit_succ, Nat.testBit_zero]
  rw [Bool.eq_iff_iff]
  simp only [ack_interrupt, hand, ht1, Nat.testBit_zero, bne_iff_ne, ne_eq,
    Bool.or_eq_true, decide_eq_true_eq]
  omega

/-- C9: `queue_set` writes only the low 16 bits of its 32-bit `size` argument
to the `queue_size` register (`size as u16`), with no error channel at the
public interface; for example `size = 70000` stores `70000 % 2 ^ 16 = 4464`. -/
theorem queue_size_truncation_spec
    (st : CommonCfgState) (queue size descriptors driver_area device_area : Nat) :
    (queue_set st queue size descriptors driver_area device_area).queue_size_bank
        (queue % 2 ^ 16) = size % 2 ^ 16
      ∧ (queue_set exampleState 0 70000 0 0 0).queue_size_bank 0 = 4464 := by
  refine ⟨?_, by decide⟩
  simp [queue_set, writeField, updateBank]

/-- C10: `get_status` truncates the 8-bit `device_status` register value to
the defined `DeviceStatus` flag set (`from_bits_truncate`), so it never
returns a flag outside that set, and `set_status` writes only the low 8 bits
of the given flag set to the register. -/
theorem device_status_spec (st : CommonCfgState) (status : Nat) :
    get_status st &&& deviceStatusMask = get_status st
      ∧ get_status st = st.device_status % 2 ^ 8 &&& deviceStatusMask
      ∧ (set_status st status).device_status = status % 2 ^ 8 := by
  refine ⟨?_, rfl, rfl⟩
  have h : get_status st = st.device_status % 2 ^ 8 &&& deviceStatusMask := rfl
  rw [h, Nat.and_assoc, Nat.and_self]

/-- C7: after `queue_set(queue, ...)` the register protocol reports
`queue_used(queue) = true`; `queue_unset` is a no-op performing no register
access, so `queue_used(queue)` stays true after it; and no operation of the
transport ever clears an enabled queue's `queue_enable` register (monotonic
enable). -/
theorem queue_lifecycle_spec
    (st : CommonCfgState) (queue size descriptors driver_area device_area : Nat) :
    (queue_used (queue_set st queue size descriptors driver_area device_area) queue).2 = true
      ∧ queue_unset (queue_set st queue size descriptors driver_area device_area) queue
          = queue_set st queue size descriptors driver_area device_area
      ∧ (queue_used
          (queue_unset (queue_set st queue size descriptors driver_area device_area) queue)
          queue).2 = true
      ∧ ∀ (st' : CommonCfgState) (op : TransportOp) (i : Nat),
          st'.queue_enable_bank i = 1 → (applyOp st' op).queue_enable_bank i = 1 := by
  refine ⟨?_, rfl, ?_, ?_⟩
  · simp [queue_used, queue_set, writeField, readField, updateBank, fieldSize]
  · simp [queue_used, queue_unset, queue_set, writeField, readField, updateBank, fieldSize]
  · intro st' op i h
    cases op with
    | queue_set q s d dr dv =>
        simp only [applyOp, queue_set, writeField, updateBank]
        split
        · rfl
        · exact h
    | read_device_features => exact h
    | write_driver_features bits => exact h
    | max_queue_size q => exact h
    | notify m q => exact h
    | set_status s => exact h
    | queue_unset q => exact h
    | queue_used q => exact h

/-- Closed witness for the hypothesis-bearing part of `queue_lifecycle_spec`,
evaluated on a state with queue 0 enabled. -/
theorem queue_lifecycle_spec_witness :
    (applyOp { exampleState with queue_enable_bank := fun _ => 1 }
        (.queue_unset 0)).queue_enable_bank 0 = 1 :=
  (queue_lifecycle_spec exampleState 0 0 0 0 0).2.2.2
    { exampleState with queue_enable_bank := fun _ => 1 } (.queue_unset 0) 0 rfl

/-- C6 counterexample: the claim states that for every offset,
`read_config_space` returns the too-small error whenever
`offset + size_of(T)` exceeds the window size.  The source computes that sum
with `usize` arithmetic, which wraps: a `u32` read at offset `2 ^ 64 - 4` on a
window of size 4 has wrapped sum 0, passes the size check, passes the
delegated window read's equally wrapped bounds assert, and succeeds — no
too-small error — although the true sum exceeds the window size. -/
theorem config_space_wrap_escape :
    read_config_space (some ⟨36864, 4⟩) 4 4 (2 ^ 64 - 4) = .ok ⟨36860, 4⟩
      ∧ 4 < 2 ^ 64 - 4 + 4 := by
  exact ⟨rfl, by norm_num⟩

/-- C6 (amended): under the asserted preconditions (`align_of::<T>() <= 4` and
aligned offset), `read_config_space` and `write_config_space` fail with
`ConfigSpaceMissing` when the device-config window is absent, fail with
`ConfigSpaceTooSmall` when the wrapping 64-bit (`usize`) sum
`offset + size_of::<T>()` exceeds the window size — in both error cases
returning before any register access and leaving the transport unchanged —
and otherwise delegate to the window's typed access; on a window of size 4, a
`u32` access at offset 4 fails with the too-small error and at offset 0
succeeds. -/
theorem config_space_spec (config_space : Option HypIoRegion)
    (talign tsize offset value : Nat)
    (halign : talign ≤ 4) (haligned : offset % talign = 0) :
    (config_space = none →
        read_config_space config_space talign tsize offset = .fail .ConfigSpaceMissing
          ∧ write_config_space config_space talign tsize offset value
            = .fail .ConfigSpaceMissing)
      ∧ (∀ cs, config_space = some cs → cs.size < (offset + tsize) % 2 ^ 64 →
          read_config_space config_space talign tsize offset = .fail .ConfigSpaceTooSmall
            ∧ write_config_space config_space talign tsize offset value
              = .fail .ConfigSpaceTooSmall)
      ∧ (∀ cs, config_space = some cs → (offset + tsize) % 2 ^ 64 ≤ cs.size →
          read_config_space config_space talign tsize offset = cs.read tsize offset
            ∧ write_config_space config_space talign tsize offset value
              = cs.write tsize offset value)
      ∧ read_config_space (some ⟨36864, 4⟩) 4 4 4 = .fail .ConfigSpaceTooSmall
      ∧ read_config_space (some ⟨36864, 4⟩) 4 4 0 = .ok ⟨36864, 4⟩ := by
  refine ⟨?_, ?_, ?_, ?_, ?_⟩
  · rintro rfl
    constructor <;> simp [read_config_space, write_config_space, halign, haligned]
  · rintro cs rfl hsmall
    constructor
    · unfold read_config_space
      rw [if_pos halign, if_pos haligned]
      exact if_pos hsmall
    · unfold write_config_space
      rw [if_pos halign, if_pos haligned]
      exact if_pos hsmall
  · rintro cs rfl hfits
    constructor
    · unfold read_config_space
      rw [if_pos halign, if_pos haligned]
      exact if_neg (Nat.not_lt.mpr hfits)
    · unfold write_config_space
      rw [if_pos halign, if_pos haligned]
      exact if_neg (Nat.not_lt.mpr hfits)
  · rfl
  · rfl

/-- Closed witness for `config_space_spec`: an absent device-config window
yields the missing-config error. -/
theorem config_space_spec_witness :
    read_config_space none 4 4 8 = .fail .ConfigSpaceMissing :=
  ((config_space_spec none 4 4 8 0 (by decide) (by decide)).1 rfl).1

/-- C3 counterexample: the claim states that a capability record whose true
`offset + length` sum exceeds the BAR size is always rejected with the
offset-out-of-range error, even when the sum does not fit in 32 bits.  The
source adds two `u32`s, so the sum wraps: with `offset = 0xFFFF_FFFC`,
`length = 8` and a BAR of size 4096 at address 4, the wrapped sum is 4,
the check passes, and resolution succeeds with a window — no error at all —
although the true sum exceeds the BAR size. -/
theorem get_bar_region_overflow_escape :
    get_bar_region (.memory 4 4096) ⟨0, 4294967292, 8⟩ 4 4
        = .ok ⟨4294967296, 8⟩
      ∧ 4096 < 4294967292 + 8 := by
  exact ⟨rfl, by norm_num⟩

/-- C3 (amended): `get_bar_region` resolves to a window exactly when no
rejection applies, and otherwise returns the error of the first applicable
rejection, where the range check compares the wrapping 32-bit sum
`offset + length` against the BAR size: an I/O BAR yields the unexpected-I/O
error; a zero base address yields the not-allocated error carrying the BAR
index; a wrapped `offset + length` exceeding the BAR size, or a type size
exceeding the record length, yields the offset-out-of-range error; a resolved
physical address not aligned to the type's alignment yields the misaligned
error carrying that address and alignment. -/
theorem get_bar_region_spec (bar_info : BarInfo) (si : VirtioCapabilityInfo)
    (tsize talign : Nat) :
    (bar_info = .io →
        get_bar_region bar_info si tsize talign = .error .UnexpectedIoBar)
      ∧ (∀ address size, bar_info = .memory address size →
          (address = 0 →
              get_bar_region bar_info si tsize talign
                = .error (.BarNotAllocated si.bar))
          ∧ (address ≠ 0 →
              size < (si.offset + si.length) % 2 ^ 32 ∨ si.length < tsize →
              get_bar_region bar_info si tsize talign = .error .BarOffsetOutOfRange)
          ∧ (address ≠ 0 →
              (si.offset + si.length) % 2 ^ 32 ≤ size → tsize ≤ si.length →
              (address + si.offset) % 2 ^ 64 % talign ≠ 0 →
              get_bar_region bar_info si tsize talign
                = .error (.Misaligned ((address + si.offset) % 2 ^ 64) talign))
          ∧ (address ≠ 0 →
              (si.offset + si.length) % 2 ^ 32 ≤ size → tsize ≤ si.length →
              (address + si.offset) % 2 ^ 64 % talign = 0 →
              get_bar_region bar_info si tsize talign
                = .ok ⟨(address + si.offset) % 2 ^ 64, si.length⟩)) := by
  constructor
  · rintro rfl
    rfl
  · rintro address size rfl
    refine ⟨?_, ?_, ?_, ?_⟩
    · rintro rfl
      rfl
    · intro hnz hrange
      simp [get_bar_region, BarInfo.memory_address_size, hnz]
      omega
    · intro hnz hr1 hr2 hmis
      simp [get_bar_region, BarInfo.memory_address_size, hnz]
      split_ifs with h1 h2
      · exact absurd h1 (by omega)
      · exact absurd h2 hmis
      · rfl
    · intro hnz hr1 hr2 hal
      simp [get_bar_region, BarInfo.memory_address_size, hnz]
      split_ifs with h1 h2
      · exact absurd h1 (by omega)
      · rfl
      · exact absurd hal h2

/-- Closed witness for `get_bar_region_spec`: a well-formed memory BAR and
record resolve to the expected window. -/
theorem get_bar_region_spec_witness :
    get_bar_region (.memory 4096 64) ⟨1, 0, 16⟩ 4 4 = .ok ⟨4096, 16⟩ :=
  ((get_bar_region_spec (.memory 4096 64) ⟨1, 0, 16⟩ 4 4).2 4096 64 rfl).2.2.2
    (by norm_num) (by norm_num) (by norm_num) (by norm_num)

lemma scanStep_common_cfg (rw : Nat → Nat) (st : ScanState) (c : CapabilityEntry) :
    (scanStep rw st c).common_cfg =
      if keptCap VIRTIO_PCI_CAP_COMMON_CFG 16 c = true ∧ st.common_cfg = none
      then some (structInfoOf rw c) else st.common_cfg := by
  unfold scanStep keptCap
  simp only [decide_eq_true_eq]
  split_ifs <;>
    simp_all [PCI_CAP_ID_VNDR, VIRTIO_PCI_CAP_COMMON_CFG, VIRTIO_PCI_CAP_NOTIFY_CFG,
      VIRTIO_PCI_CAP_ISR_CFG, VIRTIO_PCI_CAP_DEVICE_CFG]
  all_goals omega

lemma scanStep_notify_cfg (rw : Nat → Nat) (st : ScanState) (c : CapabilityEntry) :
    (scanStep rw st c).notify_cfg =
      if keptCap VIRTIO_PCI_CAP_NOTIFY_CFG 20 c = true ∧ st.notify_cfg = none
      then some (structInfoOf rw c) else st.notify_cfg := by
  unfold scanStep keptCap
  simp only [decide_eq_true_eq]
  split_ifs <;>
    simp_all [PCI_CAP_ID_VNDR, VIRTIO_PCI_CAP_COMMON_CFG, VIRTIO_PCI_CAP_NOTIFY_CFG,
      VIRTIO_PCI_CAP_ISR_CFG, VIRTIO_PCI_CAP_DEVICE_CFG]
  all_goals omega

lemma scanStep_isr_cfg (rw : Nat → Nat) (st : ScanState) (c : CapabilityEntry) :
    (scanStep rw st c).isr_cfg =
      if keptCap VIRTIO_PCI_CAP_ISR_CFG 16 c = true ∧ st.isr_cfg = none
      then some (structInfoOf rw c) else st.isr_cfg := by
  unfold scanStep keptCap
  simp only [decide_eq_true_eq]
  split_ifs <;>
    simp_all [PCI_CAP_ID_VNDR, VIRTIO_PCI_CAP_COMMON_CFG, VIRTIO_PCI_CAP_NOTIFY_CFG,
      VIRTIO_PCI_CAP_ISR_CFG, VIRTIO_PCI_CAP_DEVICE_CFG]
  all_goals omega

lemma scanStep_device_cfg (rw : Nat → Nat) (st : ScanState) (c : CapabilityEntry) :
    (scanStep rw st c).device_cfg =
      if keptCap VIRTIO_PCI_CAP_DEVICE_CFG 16 c = true ∧ st.device_cfg = none
      then some (structInfoOf rw c) else st.device_cfg := by
  unfold scanStep keptCap
  simp only [decide_eq_true_eq]
  split_ifs <;>
    simp_all [PCI_CAP_ID_VNDR, VIRTIO_PCI_CAP_COMMON_CFG, VIRTIO_PCI_CAP_NOTIFY_CFG,
      VIRTIO_PCI_CAP_ISR_CFG, VIRTIO_PCI_CAP_DEVICE_CFG]
  all_goals omega

lemma scanFold_common_cfg (rw : Nat → Nat) (caps : List CapabilityEntry) :
    ∀ st : ScanState,
      (caps.foldl (scanStep rw) st).common_cfg =
        match st.common_cfg with
        | some x => some x
        | none =>
            (caps.find? (keptCap VIRTIO_PCI_CAP_COMMON_CFG 16)).map (structInfoOf rw) := by
  induction caps with
  | nil =>
      intro st
      cases h : st.common_cfg <;> simp [h]
  | cons c cs ih =>
      intro st
      rw [List.foldl_cons, ih, scanStep_common_cfg]
      cases h : st.common_cfg with
      | some x => simp [h]
      | none =>
          cases hk : keptCap VIRTIO_PCI_CAP_COMMON_CFG 16 c with
          | true => simp [h, hk, List.find?_cons_of_pos]
          | false => simp [h, hk, List.find?_cons]

lemma scanFold_notify_cfg (rw : Nat → Nat) (caps : List CapabilityEntry) :
    ∀ st : ScanState,
      (caps.foldl (scanStep rw) st).notify_cfg =
        match st.notify_cfg with
        | some x => some x
        | none =>
            (caps.find? (keptCap VIRTIO_PCI_CAP_NOTIFY_CFG 20)).map (structInfoOf rw) := by
  induction caps with
  | nil =>
      intro st
      cases h : st.notify_cfg <;> simp [h]
  | cons c cs ih =>
      intro st
      rw [List.foldl_cons, ih, scanStep_notify_cfg]
      cases h : st.notify_cfg with
      | some x => simp [h]
      | none =>
          cases hk : keptCap VIRTIO_PCI_CAP_NOTIFY_CFG 20 c with
          | true => simp [h, hk, List.find?_cons_of_pos]
          | false => simp [h, hk, List.find?_cons]

lemma scanFold_isr_cfg (rw : Nat → Nat) (caps : List CapabilityEntry) :
    ∀ st : ScanState,
      (caps.foldl (scanStep rw) st).isr_cfg =
        match st.isr_cfg with
        | some x => some x
        | none =>
            (caps.find? (keptCap VIRTIO_PCI_CAP_ISR_CFG 16)).map (structInfoOf rw) := by
  induction caps with
  | nil =>
      intro st
      cases h : st.isr_cfg <;> simp [h]
  | cons c cs ih =>
      intro st
      rw [List.foldl_cons, ih, scanStep_isr_cfg]
      cases h : st.isr_cfg with
      | some x => simp [h]
      | none =>
          cases hk : keptCap VIRTIO_PCI_CAP_ISR_CFG 16 c with
          | true => simp [h, hk, List.find?_cons_of_pos]
          | false => simp [h, hk, List.find?_cons]

lemma scanFold_device_cfg (rw : Nat → Nat) (caps : List CapabilityEntry) :
    ∀ st : ScanState,
      (caps.foldl (scanStep rw) st).device_cfg =
        match st.device_cfg with
        | some x => some x
        | none =>
            (caps.find? (keptCap VIRTIO_PCI_CAP_DEVICE_CFG 16)).map (structInfoOf rw) := by
  induction caps with
  | nil =>
      intro st
      cases h : st.device_cfg <;> simp [h]
  | cons c cs ih =>
      intro st
      rw [List.foldl_cons, ih, scanStep_device_cfg]
      cases h : st.device_cfg with
      | some x => simp [h]
      | none =>
          cases hk : keptCap VIRTIO_PCI_CAP_DEVICE_CFG 16 c with
          | true => simp [h, hk, List.find?_cons_of_pos]
          | false => simp [h, hk, List.find?_cons]

/-- C2: the capability scan of `HypPciTransport::new` retains, for each
subtype, exactly the first capability-list entry that is vendor-specific with
a declared structure length of at least 16 and the matching subtype code —
with the notify subtype additionally requiring length at least 20, so a short
notify entry is skipped entirely and a later qualifying one is the one kept —
and decodes it through the three configuration-space reads. -/
theorem capability_scan_spec (rw : Nat → Nat) (caps : List CapabilityEntry) :
    (scanCapabilities rw caps).common_cfg
        = (caps.find? (keptCap VIRTIO_PCI_CAP_COMMON_CFG 16)).map (structInfoOf rw)
      ∧ (scanCapabilities rw caps).notify_cfg
        = (caps.find? (keptCap VIRTIO_PCI_CAP_NOTIFY_CFG 20)).map (structInfoOf rw)
      ∧ (scanCapabilities rw caps).isr_cfg
        = (caps.find? (keptCap VIRTIO_PCI_CAP_ISR_CFG 16)).map (structInfoOf rw)
      ∧ (scanCapabilities rw caps).device_cfg
        = (caps.find? (keptCap VIRTIO_PCI_CAP_DEVICE_CFG 16)).map (structInfoOf rw) := by
  refine ⟨?_, ?_, ?_, ?_⟩
  · rw [scanCapabilities, scanFold_common_cfg]
    rfl
  · rw [scanCapabilities, scanFold_notify_cfg]
    rfl
  · rw [scanCapabilities, scanFold_isr_cfg]
    rfl
  · rw [scanCapabilities, scanFold_device_cfg]
    rfl

end Virtio
